import Mathlib

/-!
spotifyTool: token cache and HTTP facade of `main.go`

A shallow embedding of `getSpotifyToken`, `searchTracks` and `getTrackDetails`.

The two package-level variables `spotifyAuth` and `authExpiry` become the record `State`,
threaded explicitly through every function.  Everything a handler reads from outside the
process (environment variables, the clock, the replies of the provider) is collected in the
record `World`; everything it sends out is returned as a list of `Outbound` calls, in order.

Library behaviour that the source relies on is modelled as follows.

* `time.Time` is an instant counted in nanoseconds from the zero instant, so `IsZero` is
  `= 0`, `Before` is `<` and `Add` is `+`.
* Go `int` is taken to be 64 bits wide (as on amd64 and arm64); `int` and `time.Duration`
  arithmetic wraps around, see `wrap64`.
* `json.Decoder.Decode` into a struct overwrites exactly the fields the body carries a usable
  value for, leaves the other fields alone, and reports an error when the body is malformed
  or some member has the wrong type; see `TokenBody` and `decodeSpotifyAuth`.
* `c.JSON(code, obj)` of gin sets the status and renders `obj` as the body, except that no
  body is written for a status that forbids one (1xx, 204, 304), and that a code outside
  100..999 is refused by `WriteHeader`; see `cJSON`.
-/

namespace SpotifyTool

/-! ## Data model -/

/-- The struct `SpotifyAuth` (main.go, lines 17-21). -/
structure SpotifyAuth where
  AccessToken : String
  TokenType : String
  ExpiresIn : Int
  deriving DecidableEq, Repr

/-- The innermost element type of `SearchResult.Tracks.Items[].Album.Images`. -/
structure Image where
  URL : String
  deriving DecidableEq, Repr

/-- The struct of `SearchResult.Tracks.Items[].Album`. -/
structure AlbumInfo where
  Name : String
  Images : List Image
  deriving DecidableEq, Repr

/-- The element type of `SearchResult.Tracks.Items[].Artists`. -/
structure Artist where
  Name : String
  ID : String
  deriving DecidableEq, Repr

/-- The element type of `SearchResult.Tracks.Items`. -/
structure Item where
  Name : String
  ID : String
  Duration : Int
  Album : AlbumInfo
  Artists : List Artist
  PreviewURL : String
  deriving DecidableEq, Repr

/-- The struct of `SearchResult.Tracks`. -/
structure TrackPage where
  Items : List Item
  deriving DecidableEq, Repr

/-- The struct `SearchResult` (main.go, lines 23-42). -/
structure SearchResult where
  Tracks : TrackPage
  deriving DecidableEq, Repr

/-- The decoded `map[string]interface{}` of `getTrackDetails`: member names, each with its
value kept as JSON text. -/
structure TrackMap where
  members : List (String × String)
  deriving DecidableEq, Repr

/-- The package-level variables `spotifyAuth` and `authExpiry` (main.go, lines 44-45).
`authExpiry` is an instant in nanoseconds; `0` is the zero `time.Time`. -/
structure State where
  spotifyAuth : SpotifyAuth
  authExpiry : Int
  deriving DecidableEq, Repr

/-- The state at process start: both variables hold their zero value. -/
def State.initial : State :=
  { spotifyAuth := { AccessToken := "", TokenType := "", ExpiresIn := 0 }, authExpiry := 0 }

/-! ## The outside world -/

/-- What `client.Do` gives back: an error, or a response with a status code and a body.
The body is kept in the form the decoder of the calling function makes of it. -/
inductive HttpResult (β : Type) where
  | transportError : HttpResult β
  | response (status : Int) (body : β) : HttpResult β
  deriving DecidableEq, Repr

/-- A body sent by the token endpoint, as `json.Decoder.Decode` into `SpotifyAuth` sees it.
`access_token`, `token_type`: the string the body carries for that member, `none` when the
member is absent, `null`, or not a string.  `expires_in`: the integer the body carries,
`none` when absent, `null` or not an integer literal.  `otherErr`: the decoder reports an
error for another reason (the body is not valid JSON, is not an object, or has a member of
the wrong type). -/
structure TokenBody where
  access_token : Option String
  token_type : Option String
  expires_in : Option Int
  otherErr : Bool
  deriving DecidableEq, Repr

/-- Everything a handler reads from outside the process during one invocation. -/
structure World where
  /-- The value of `os.Getenv("SPOTIFY_CLIENT_ID")`. -/
  clientID : String
  /-- The value of `os.Getenv("SPOTIFY_CLIENT_SECRET")`. -/
  clientSecret : String
  /-- The reading of `time.Now()` at line 66. -/
  nowCheck : Int
  /-- The reading of `time.Now()` at line 106. -/
  nowStore : Int
  /-- The result of `client.Do` at line 91. -/
  tokenReply : HttpResult TokenBody
  /-- The result of `client.Do` at line 139; the body is `none` when it does not decode
  into `SearchResult`. -/
  searchReply : HttpResult (Option SearchResult)
  /-- The result of `client.Do` at line 184; the body is `none` when it does not decode
  into `map[string]interface{}`. -/
  trackReply : HttpResult (Option TrackMap)
  /-- Whether `http.NewRequest` accepts the URL it is given at line 175. -/
  urlParses : String → Bool

/-- An outbound HTTP call, that is one invocation of `client.Do`. -/
inductive Outbound where
  /-- `POST https://accounts.spotify.com/api/token` with body `grant_type=client_credentials`;
  `userinfo` is the string whose base64 encoding follows `Basic ` in the header. -/
  | tokenPost (userinfo : String) : Outbound
  /-- `GET https://api.spotify.com/v1/search` with `q`, `type=track`, `limit=10`. -/
  | searchGet (q : String) (authorization : String) : Outbound
  /-- `GET` of the track URL. -/
  | trackGet (url : String) (authorization : String) : Outbound
  deriving DecidableEq, Repr

/-- Whether the call goes to the token endpoint. -/
def Outbound.isAuth : Outbound → Bool
  | .tokenPost _ => true
  | _ => false

/-- Whether the call goes to the catalog (search or track lookup). -/
def Outbound.isCatalog : Outbound → Bool
  | .tokenPost _ => false
  | _ => true

/-- The second argument of `c.JSON`. -/
inductive Payload where
  /-- `gin.H` with the single key `error`. -/
  | error (msg : String) : Payload
  | search (r : SearchResult) : Payload
  | track (m : TrackMap) : Payload
  deriving DecidableEq, Repr

/-- What the `c.JSON` call that ends a handler produces.  `sent status body`: the response
goes out with this status, and with this body when there is one.  `refused code`: the code is
outside 100..999, `WriteHeader` does not accept it, and no response with this code is
written. -/
inductive Response where
  | sent (status : Int) (body : Option Payload) : Response
  | refused (code : Int) : Response
  deriving DecidableEq, Repr

/-- The function `bodyAllowedForStatus` that `c.JSON` consults before it renders the body:
a 1xx, 204 or 304 response carries none. -/
def bodyAllowedForStatus (status : Int) : Bool :=
  if 100 ≤ status ∧ status ≤ 199 then false
  else if status = 204 then false
  else if status = 304 then false
  else true

/-- The call `c.JSON(code, obj)`. -/
def cJSON (code : Int) (obj : Payload) : Response :=
  if code < 100 ∨ 999 < code then .refused code
  else if bodyAllowedForStatus code then .sent code (some obj)
  else .sent code none

/-! ## Machine arithmetic -/

/-- Two's complement wrap-around of a 64-bit signed integer. -/
def wrap64 (x : Int) : Int :=
  (x + 9223372036854775808) % 18446744073709551616 - 9223372036854775808

/-- Whether `x` is a value of a 64-bit signed integer. -/
def inInt64 (x : Int) : Prop :=
  -9223372036854775808 ≤ x ∧ x ≤ 9223372036854775807

instance (x : Int) : Decidable (inInt64 x) := by
  unfold inInt64; infer_instance

/-- The expression `time.Duration(spotifyAuth.ExpiresIn-60) * time.Second` of line 106, in
nanoseconds: an `int` subtraction followed by an `int64` multiplication by `1e9`. -/
def expiryDuration (expiresIn : Int) : Int :=
  wrap64 (wrap64 (expiresIn - 60) * 1000000000)

/-! ## getSpotifyToken -/

/-- The call `json.NewDecoder(resp.Body).Decode(&spotifyAuth)` of line 101: the new value of
`spotifyAuth` and whether an error is returned.  A member that is carried is written, any other
field keeps its prior value; an integer outside the range of `int` is not written and makes
the decoder report an error. -/
def decodeSpotifyAuth (b : TokenBody) (prior : SpotifyAuth) : SpotifyAuth × Bool :=
  let a := match b.access_token with
    | some v => v
    | none => prior.AccessToken
  let t := match b.token_type with
    | some v => v
    | none => prior.TokenType
  match b.expires_in with
  | none => ({ AccessToken := a, TokenType := t, ExpiresIn := prior.ExpiresIn }, b.otherErr)
  | some e =>
    if inInt64 e then ({ AccessToken := a, TokenType := t, ExpiresIn := e }, b.otherErr)
    else ({ AccessToken := a, TokenType := t, ExpiresIn := prior.ExpiresIn }, true)

/-- What a call of `getSpotifyToken` leaves behind: the state, the returned error (`none` for
`nil`) and the outbound calls it made. -/
structure TokenResult where
  state : State
  err : Option String
  calls : List Outbound
  deriving DecidableEq, Repr

/-- The function `getSpotifyToken` (main.go, lines 65-108).  `http.NewRequest` at line 81 is
given a literal method and a literal URL and does not fail. -/
def getSpotifyToken (w : World) (s : State) : TokenResult :=
  if s.authExpiry ≠ 0 ∧ w.nowCheck < s.authExpiry then
    { state := s, err := none, calls := [] }
  else if w.clientID = "" ∨ w.clientSecret = "" then
    { state := s, err := some "missing Spotify credentials", calls := [] }
  else
    let call := Outbound.tokenPost (w.clientID ++ ":" ++ w.clientSecret)
    match w.tokenReply with
    | .transportError => { state := s, err := some "transport error", calls := [call] }
    | .response status body =>
      if status ≠ 200 then
        { state := s, err := some ("failed to get token, status: " ++ toString status),
          calls := [call] }
      else
        let d := decodeSpotifyAuth body s.spotifyAuth
        if d.2 then
          { state := { s with spotifyAuth := d.1 }, err := some "decode error", calls := [call] }
        else
          { state := { spotifyAuth := d.1,
                       authExpiry := w.nowStore + expiryDuration d.1.ExpiresIn },
            err := none, calls := [call] }

/-! ## The handlers -/

/-- What a handler leaves behind: the state, the response and the outbound calls. -/
structure HandlerResult where
  state : State
  response : Response
  calls : List Outbound
  deriving DecidableEq, Repr

/-- The header value `spotifyAuth.TokenType+" "+spotifyAuth.AccessToken`. -/
def bearer (a : SpotifyAuth) : String :=
  a.TokenType ++ " " ++ a.AccessToken

/-- The function `searchTracks` (main.go, lines 110-159); `query` is `c.Query("q")`, the empty
string when the parameter is missing.  `http.NewRequest` at line 124 is given a literal
method and a literal URL and does not fail. -/
def searchTracks (w : World) (s : State) (query : String) : HandlerResult :=
  if query = "" then
    { state := s, response := cJSON 400 (.error "query parameter 'q' is required"),
      calls := [] }
  else
    let t := getSpotifyToken w s
    match t.err with
    | some _ =>
      { state := t.state, response := cJSON 500 (.error "Failed to authenticate with Spotify"),
        calls := t.calls }
    | none =>
      let call := Outbound.searchGet query (bearer t.state.spotifyAuth)
      match w.searchReply with
      | .transportError =>
        { state := t.state, response := cJSON 500 (.error "Failed to search tracks"),
          calls := t.calls ++ [call] }
      | .response status body =>
        if status ≠ 200 then
          { state := t.state, response := cJSON status (.error "Spotify API error"),
            calls := t.calls ++ [call] }
        else
          match body with
          | none =>
            { state := t.state, response := cJSON 500 (.error "Failed to parse response"),
              calls := t.calls ++ [call] }
          | some r =>
            { state := t.state, response := cJSON 200 (.search r), calls := t.calls ++ [call] }

/-- The URL built at line 174. -/
def trackURL (trackID : String) : String :=
  "https://api.spotify.com/v1/tracks/" ++ trackID

/-- The function `getTrackDetails` (main.go, lines 161-204); `trackID` is `c.Param("id")`, the
empty string when the parameter is missing. -/
def getTrackDetails (w : World) (s : State) (trackID : String) : HandlerResult :=
  if trackID = "" then
    { state := s, response := cJSON 400 (.error "track ID is required"), calls := [] }
  else
    let t := getSpotifyToken w s
    match t.err with
    | some _ =>
      { state := t.state, response := cJSON 500 (.error "Failed to authenticate with Spotify"),
        calls := t.calls }
    | none =>
      if w.urlParses (trackURL trackID) = false then
        { state := t.state, response := cJSON 500 (.error "Failed to create request"),
          calls := t.calls }
      else
        let call := Outbound.trackGet (trackURL trackID) (bearer t.state.spotifyAuth)
        match w.trackReply with
        | .transportError =>
          { state := t.state, response := cJSON 500 (.error "Failed to get track details"),
            calls := t.calls ++ [call] }
        | .response status body =>
          if status ≠ 200 then
            { state := t.state, response := cJSON status (.error "Spotify API error"),
              calls := t.calls ++ [call] }
          else
            match body with
            | none =>
              { state := t.state, response := cJSON 500 (.error "Failed to parse response"),
                calls := t.calls ++ [call] }
            | some m =>
              { state := t.state, response := cJSON 200 (.track m), calls := t.calls ++ [call] }

/-! ## Sample worlds -/

/-- A world with credentials set, a token endpoint answering 200 with a one hour token, and
both catalog endpoints answering 200 with an empty result. -/
def sampleWorld : World :=
  { clientID := "id", clientSecret := "secret", nowCheck := 1000, nowStore := 2000,
    tokenReply := .response 200
      { access_token := some "tok", token_type := some "Bearer", expires_in := some 3600,
        otherErr := false },
    searchReply := .response 200 (some { Tracks := { Items := [] } }),
    trackReply := .response 200 (some { members := [] }),
    urlParses := fun _ => true }


/-- The world of `sampleWorld` with neither environment variable set. -/
def unsetWorld : World :=
  { sampleWorld with clientID := "", clientSecret := "" }

/-- A state holding a credential that expires at instant `5000`. -/
def heldState : State :=
  { spotifyAuth := { AccessToken := "old", TokenType := "Bearer", ExpiresIn := 3600 },
    authExpiry := 5000 }

/-- A state holding a credential that expired at instant `500`. -/
def staleState : State :=
  { spotifyAuth := { AccessToken := "old", TokenType := "Bearer", ExpiresIn := 3600 },
    authExpiry := 500 }

/-- The world of `sampleWorld` with a token endpoint answering 503. -/
def failingAuthWorld : World :=
  { sampleWorld with tokenReply := .response 503 ⟨none, none, none, true⟩ }

/-- A token body whose `expires_in` makes the multiplication by `1e9` exceed 64 bits. -/
def overflowBody : TokenBody :=
  { access_token := some "tok", token_type := some "Bearer", expires_in := some 9223372097,
    otherErr := false }

/-- The world of `sampleWorld` with a token endpoint answering 200 with `overflowBody`. -/
def overflowWorld : World :=
  { sampleWorld with tokenReply := .response 200 overflowBody }

/-- A token body whose negative `expires_in` wraps around to a positive duration. -/
def wrapBody : TokenBody :=
  { access_token := some "tok", token_type := some "Bearer", expires_in := some (-9223371977),
    otherErr := false }

/-- The world of `sampleWorld` with a token endpoint answering 200 with `wrapBody`. -/
def wrapWorld : World :=
  { sampleWorld with tokenReply := .response 200 wrapBody }

/-- A later world: the same environment, the clock one hour after `sampleWorld.nowStore`. -/
def laterWorld : World :=
  { sampleWorld with nowCheck := 3600000002000, nowStore := 3600000003000 }

/-- A token body carrying a token that is valid for thirty seconds. -/
def shortBody : TokenBody :=
  { access_token := some "tok", token_type := some "Bearer", expires_in := some 30,
    otherErr := false }

/-- The world of `sampleWorld` with a token endpoint answering 200 with `shortBody`. -/
def shortWorld : World :=
  { sampleWorld with tokenReply := .response 200 shortBody }

/-- The world of `sampleWorld` with a search endpoint answering 429 and a track endpoint
answering 404. -/
def upstreamErrorWorld : World :=
  { sampleWorld with searchReply := .response 429 none, trackReply := .response 404 none }

/-- The world of `sampleWorld` with both catalog endpoints answering 200 with a body that
does not decode. -/
def garbledWorld : World :=
  { sampleWorld with searchReply := .response 200 none, trackReply := .response 200 none }

/-- The world of `sampleWorld` with a search endpoint answering 204 and a track endpoint
answering 304. -/
def noContentWorld : World :=
  { sampleWorld with searchReply := .response 204 none, trackReply := .response 304 none }

/-! ## Arithmetic lemmas -/

theorem wrap64_of_inInt64 (x : Int) (h : inInt64 x) : wrap64 x = x := by
  unfold inInt64 at h
  unfold wrap64
  omega

theorem expiryDuration_of_fits (e : Int) (h : inInt64 ((e - 60) * 1000000000)) :
    expiryDuration e = (e - 60) * 1000000000 := by
  have h1 : inInt64 (e - 60) := by
    unfold inInt64 at h ⊢
    omega
  unfold expiryDuration
  rw [wrap64_of_inInt64 _ h1, wrap64_of_inInt64 _ h]

/-! ## Lemmas on getSpotifyToken -/

theorem getSpotifyToken_of_fresh (w : World) (s : State)
    (h : s.authExpiry ≠ 0 ∧ w.nowCheck < s.authExpiry) :
    getSpotifyToken w s = { state := s, err := none, calls := [] } := by
  unfold getSpotifyToken
  rw [if_pos h]

theorem getSpotifyToken_of_unset (w : World) (s : State)
    (h : ¬ (s.authExpiry ≠ 0 ∧ w.nowCheck < s.authExpiry))
    (hc : w.clientID = "" ∨ w.clientSecret = "") :
    getSpotifyToken w s =
      { state := s, err := some "missing Spotify credentials", calls := [] } := by
  unfold getSpotifyToken
  rw [if_neg h, if_pos hc]

theorem getSpotifyToken_of_transportError (w : World) (s : State)
    (h : ¬ (s.authExpiry ≠ 0 ∧ w.nowCheck < s.authExpiry))
    (hc : ¬ (w.clientID = "" ∨ w.clientSecret = ""))
    (hr : w.tokenReply = .transportError) :
    getSpotifyToken w s =
      { state := s, err := some "transport error",
        calls := [Outbound.tokenPost (w.clientID ++ ":" ++ w.clientSecret)] } := by
  unfold getSpotifyToken
  rw [if_neg h, if_neg hc]
  simp only [hr]

theorem getSpotifyToken_of_status (w : World) (s : State) (status : Int) (b : TokenBody)
    (h : ¬ (s.authExpiry ≠ 0 ∧ w.nowCheck < s.authExpiry))
    (hc : ¬ (w.clientID = "" ∨ w.clientSecret = ""))
    (hr : w.tokenReply = .response status b) (hs : status ≠ 200) :
    getSpotifyToken w s =
      { state := s, err := some ("failed to get token, status: " ++ toString status),
        calls := [Outbound.tokenPost (w.clientID ++ ":" ++ w.clientSecret)] } := by
  unfold getSpotifyToken
  rw [if_neg h, if_neg hc]
  simp only [hr]
  rw [if_pos hs]

theorem getSpotifyToken_of_undecodable (w : World) (s : State) (b : TokenBody)
    (h : ¬ (s.authExpiry ≠ 0 ∧ w.nowCheck < s.authExpiry))
    (hc : ¬ (w.clientID = "" ∨ w.clientSecret = ""))
    (hr : w.tokenReply = .response 200 b)
    (hd : (decodeSpotifyAuth b s.spotifyAuth).2 = true) :
    getSpotifyToken w s =
      { state := { s with spotifyAuth := (decodeSpotifyAuth b s.spotifyAuth).1 },
        err := some "decode error",
        calls := [Outbound.tokenPost (w.clientID ++ ":" ++ w.clientSecret)] } := by
  unfold getSpotifyToken
  rw [if_neg h, if_neg hc]
  simp only [hr]
  rw [if_neg (by simp), if_pos hd]

theorem getSpotifyToken_of_decoded (w : World) (s : State) (b : TokenBody)
    (h : ¬ (s.authExpiry ≠ 0 ∧ w.nowCheck < s.authExpiry))
    (hc : ¬ (w.clientID = "" ∨ w.clientSecret = ""))
    (hr : w.tokenReply = .response 200 b)
    (hd : (decodeSpotifyAuth b s.spotifyAuth).2 = false) :
    getSpotifyToken w s =
      { state := { spotifyAuth := (decodeSpotifyAuth b s.spotifyAuth).1,
                   authExpiry := w.nowStore +
                     expiryDuration (decodeSpotifyAuth b s.spotifyAuth).1.ExpiresIn },
        err := none,
        calls := [Outbound.tokenPost (w.clientID ++ ":" ++ w.clientSecret)] } := by
  unfold getSpotifyToken
  rw [if_neg h, if_neg hc]
  simp only [hr]
  rw [if_neg (by simp), if_neg (by simp [hd])]

theorem stale_iff (w : World) (s : State) :
    (s.authExpiry = 0 ∨ ¬ w.nowCheck < s.authExpiry) ↔
      ¬ (s.authExpiry ≠ 0 ∧ w.nowCheck < s.authExpiry) := by
  constructor
  · rintro (h | h) ⟨h1, h2⟩
    · exact h1 h
    · exact h h2
  · intro h
    by_cases h0 : s.authExpiry = 0
    · exact Or.inl h0
    · exact Or.inr (fun h2 => h ⟨h0, h2⟩)

/-- At most one outbound call is made by `getSpotifyToken`, and only to the token endpoint. -/
theorem getSpotifyToken_calls (w : World) (s : State) :
    (getSpotifyToken w s).calls = [] ∨
      (getSpotifyToken w s).calls =
        [Outbound.tokenPost (w.clientID ++ ":" ++ w.clientSecret)] := by
  unfold getSpotifyToken
  split_ifs
  · exact Or.inl rfl
  · exact Or.inl rfl
  · cases w.tokenReply with
    | transportError => exact Or.inr rfl
    | response status body =>
      simp only
      split_ifs <;> exact Or.inr rfl

/-! ## Lemmas on decodeSpotifyAuth -/

theorem decodeSpotifyAuth_accessToken (b : TokenBody) (prior : SpotifyAuth) (a : String)
    (h : b.access_token = some a) : (decodeSpotifyAuth b prior).1.AccessToken = a := by
  unfold decodeSpotifyAuth
  rw [h]
  cases b.expires_in with
  | none => rfl
  | some e =>
    simp only
    split_ifs <;> rfl

theorem decodeSpotifyAuth_tokenType (b : TokenBody) (prior : SpotifyAuth) (t : String)
    (h : b.token_type = some t) : (decodeSpotifyAuth b prior).1.TokenType = t := by
  unfold decodeSpotifyAuth
  rw [h]
  cases b.expires_in with
  | none => rfl
  | some e =>
    simp only
    split_ifs <;> rfl

theorem decodeSpotifyAuth_expiresIn (b : TokenBody) (prior : SpotifyAuth) (e : Int)
    (h : b.expires_in = some e) (hin : inInt64 e) :
    (decodeSpotifyAuth b prior).1.ExpiresIn = e := by
  unfold decodeSpotifyAuth
  rw [h]
  simp only
  rw [if_pos hin]

theorem decodeSpotifyAuth_expiresIn_absent (b : TokenBody) (prior : SpotifyAuth)
    (h : b.expires_in = none) :
    (decodeSpotifyAuth b prior).1.ExpiresIn = prior.ExpiresIn := by
  unfold decodeSpotifyAuth
  rw [h]

theorem getSpotifyToken_calls_ne_nil (w : World) (s : State)
    (h : ¬ (s.authExpiry ≠ 0 ∧ w.nowCheck < s.authExpiry))
    (hc : ¬ (w.clientID = "" ∨ w.clientSecret = "")) :
    (getSpotifyToken w s).calls ≠ [] := by
  unfold getSpotifyToken
  rw [if_neg h, if_neg hc]
  cases w.tokenReply with
  | transportError => simp
  | response status body =>
    simp only
    split_ifs <;> simp

theorem getSpotifyToken_calls_not_catalog (w : World) (s : State) (c : Outbound)
    (hc : c ∈ (getSpotifyToken w s).calls) : c.isCatalog = false := by
  rcases getSpotifyToken_calls w s with h | h
  · rw [h] at hc
    simp at hc
  · rw [h] at hc
    simp only [List.mem_singleton] at hc
    rw [hc]
    rfl

/-! ## The token cache -/

/-- C1: when the cache holds a credential (non-zero expiry) whose expiry is strictly after the
current time, `getSpotifyToken` returns `nil`, makes no outbound call and leaves the cached
access token, token type and expiry as they were, whatever the environment variables are. -/
theorem getSpotifyToken_cached (w : World) (s : State)
    (hheld : s.authExpiry ≠ 0) (hfresh : w.nowCheck < s.authExpiry) :
    (getSpotifyToken w s).err = none ∧ (getSpotifyToken w s).calls = [] ∧
      (getSpotifyToken w s).state = s := by
  rw [getSpotifyToken_of_fresh w s ⟨hheld, hfresh⟩]
  exact ⟨rfl, rfl, rfl⟩

theorem getSpotifyToken_cached_witness :
    heldState.authExpiry ≠ 0 ∧ unsetWorld.nowCheck < heldState.authExpiry ∧
      ((getSpotifyToken unsetWorld heldState).err = none ∧
        (getSpotifyToken unsetWorld heldState).calls = [] ∧
        (getSpotifyToken unsetWorld heldState).state = heldState) :=
  ⟨by decide, by decide, getSpotifyToken_cached unsetWorld heldState (by decide) (by decide)⟩

/-- C2, as stated, fails: with an absent credential and no client id or secret in the
environment, `getSpotifyToken` makes no outbound call instead of exactly one. -/
theorem getSpotifyToken_absent_unset_no_call :
    State.initial.authExpiry = 0 ∧
      (getSpotifyToken unsetWorld State.initial).calls = [] ∧
      ¬ ((getSpotifyToken unsetWorld State.initial).calls.filter Outbound.isAuth).length = 1 := by
  decide

/-- C2, amended: when the credential is absent (zero expiry) or expired (current time not
before the stored expiry) and the client id and secret are both non-empty, `getSpotifyToken`
makes exactly one outbound call, the POST to the token endpoint; when that call is answered
with status 200 and a body that decodes, `nil` is returned and the cache holds the decoded
credential with a newly computed expiry. -/
theorem getSpotifyToken_refresh_one_call (w : World) (s : State)
    (hstale : s.authExpiry = 0 ∨ ¬ w.nowCheck < s.authExpiry)
    (hid : w.clientID ≠ "") (hsecret : w.clientSecret ≠ "") :
    (getSpotifyToken w s).calls = [Outbound.tokenPost (w.clientID ++ ":" ++ w.clientSecret)] ∧
      ((getSpotifyToken w s).calls.filter Outbound.isAuth).length = 1 ∧
      ∀ b : TokenBody, w.tokenReply = .response 200 b →
        (decodeSpotifyAuth b s.spotifyAuth).2 = false →
        (getSpotifyToken w s).err = none ∧
          (getSpotifyToken w s).state =
            { spotifyAuth := (decodeSpotifyAuth b s.spotifyAuth).1,
              authExpiry := w.nowStore +
                expiryDuration (decodeSpotifyAuth b s.spotifyAuth).1.ExpiresIn } := by
  have h := (stale_iff w s).1 hstale
  have hc : ¬ (w.clientID = "" ∨ w.clientSecret = "") := by
    rintro (h1 | h1)
    · exact hid h1
    · exact hsecret h1
  have hcalls : (getSpotifyToken w s).calls =
      [Outbound.tokenPost (w.clientID ++ ":" ++ w.clientSecret)] := by
    cases hr : w.tokenReply with
    | transportError => rw [getSpotifyToken_of_transportError w s h hc hr]
    | response status body =>
      by_cases hs : status = 200
      · subst hs
        cases hd : (decodeSpotifyAuth body s.spotifyAuth).2 with
        | true => rw [getSpotifyToken_of_undecodable w s body h hc hr hd]
        | false => rw [getSpotifyToken_of_decoded w s body h hc hr hd]
      · rw [getSpotifyToken_of_status w s status body h hc hr hs]
  refine ⟨hcalls, ?_, ?_⟩
  · rw [hcalls]
    rfl
  · intro b hr hd
    rw [getSpotifyToken_of_decoded w s b h hc hr hd]
    exact ⟨rfl, rfl⟩

theorem getSpotifyToken_refresh_one_call_witness :
    (staleState.authExpiry = 0 ∨ ¬ sampleWorld.nowCheck < staleState.authExpiry) ∧
      sampleWorld.clientID ≠ "" ∧ sampleWorld.clientSecret ≠ "" ∧
      (getSpotifyToken sampleWorld staleState).calls = [Outbound.tokenPost "id:secret"] ∧
      (getSpotifyToken sampleWorld staleState).state =
        { spotifyAuth := { AccessToken := "tok", TokenType := "Bearer", ExpiresIn := 3600 },
          authExpiry := 3540000002000 } :=
  ⟨by decide, by decide, by decide,
    (getSpotifyToken_refresh_one_call sampleWorld staleState (by decide) (by decide)
      (by decide)).1,
    ((getSpotifyToken_refresh_one_call sampleWorld staleState (by decide) (by decide)
      (by decide)).2.2 _ rfl rfl).2⟩

/-- C3, as stated, fails: a refresh answered with status 200 and the decodable body
`overflowBody`, whose `expires_in` is `9223372097`, does not store the current time plus
`expires_in - 60` seconds; the multiplication by `1e9` wraps around and the stored expiry
lies before the current time. -/
theorem getSpotifyToken_expiry_overflow :
    State.initial.authExpiry = 0 ∧
      overflowWorld.tokenReply = .response 200 overflowBody ∧
      overflowBody.expires_in = some 9223372097 ∧
      (decodeSpotifyAuth overflowBody State.initial.spotifyAuth).2 = false ∧
      (getSpotifyToken overflowWorld State.initial).err = none ∧
      (getSpotifyToken overflowWorld State.initial).state.authExpiry ≠
        overflowWorld.nowStore + (9223372097 - 60) * 1000000000 ∧
      (getSpotifyToken overflowWorld State.initial).state.authExpiry =
        overflowWorld.nowStore - 9223372036709551616 := by
  decide

/-- C3, amended: after a refresh that the token endpoint answers with status 200 and a body
that decodes, the cache holds the access token and the token type the body carries, and for
an `expires_in` such that `(expires_in - 60) * 1e9` fits a signed 64-bit integer the stored
expiry is the current time plus `expires_in - 60` seconds, for every prior cache state. -/
theorem getSpotifyToken_refresh_stores (w : World) (s : State) (b : TokenBody)
    (hstale : s.authExpiry = 0 ∨ ¬ w.nowCheck < s.authExpiry)
    (hid : w.clientID ≠ "") (hsecret : w.clientSecret ≠ "")
    (hreply : w.tokenReply = .response 200 b)
    (hdec : (decodeSpotifyAuth b s.spotifyAuth).2 = false) :
    (getSpotifyToken w s).err = none ∧
      (∀ a, b.access_token = some a →
        (getSpotifyToken w s).state.spotifyAuth.AccessToken = a) ∧
      (∀ t, b.token_type = some t →
        (getSpotifyToken w s).state.spotifyAuth.TokenType = t) ∧
      (∀ e, b.expires_in = some e → inInt64 ((e - 60) * 1000000000) →
        (getSpotifyToken w s).state.authExpiry = w.nowStore + (e - 60) * 1000000000) := by
  have h := (stale_iff w s).1 hstale
  have hc : ¬ (w.clientID = "" ∨ w.clientSecret = "") := by
    rintro (h1 | h1)
    · exact hid h1
    · exact hsecret h1
  rw [getSpotifyToken_of_decoded w s b h hc hreply hdec]
  refine ⟨rfl, ?_, ?_, ?_⟩
  · intro a ha
    rw [decodeSpotifyAuth_accessToken b s.spotifyAuth a ha]
  · intro t ht
    rw [decodeSpotifyAuth_tokenType b s.spotifyAuth t ht]
  · intro e he hfit
    have hin : inInt64 e := by
      unfold inInt64 at hfit ⊢
      omega
    show w.nowStore + expiryDuration (decodeSpotifyAuth b s.spotifyAuth).1.ExpiresIn = _
    rw [decodeSpotifyAuth_expiresIn b s.spotifyAuth e he hin, expiryDuration_of_fits e hfit]

theorem getSpotifyToken_refresh_stores_witness :
    (staleState.authExpiry = 0 ∨ ¬ sampleWorld.nowCheck < staleState.authExpiry) ∧
      sampleWorld.clientID ≠ "" ∧ sampleWorld.clientSecret ≠ "" ∧
      (getSpotifyToken sampleWorld staleState).state.spotifyAuth.AccessToken = "tok" ∧
      (getSpotifyToken sampleWorld staleState).state.spotifyAuth.TokenType = "Bearer" ∧
      (getSpotifyToken sampleWorld staleState).state.authExpiry =
        sampleWorld.nowStore + (3600 - 60) * 1000000000 :=
  ⟨by decide, by decide, by decide,
    (getSpotifyToken_refresh_stores sampleWorld staleState _ (by decide) (by decide)
      (by decide) rfl rfl).2.1 "tok" rfl,
    (getSpotifyToken_refresh_stores sampleWorld staleState _ (by decide) (by decide)
      (by decide) rfl rfl).2.2.1 "Bearer" rfl,
    (getSpotifyToken_refresh_stores sampleWorld staleState _ (by decide) (by decide)
      (by decide) rfl rfl).2.2.2 3600 rfl (by decide)⟩

/-- C4: when a refresh is needed and the client id or the client secret is empty, or the
outbound call fails at transport level, or the token endpoint answers with a status other
than 200, `getSpotifyToken` returns an error and the cached access token, token type and
expiry are what they were before; with an empty client id or secret no outbound call is
made. -/
theorem getSpotifyToken_failure_keeps_cache (w : World) (s : State)
    (hstale : s.authExpiry = 0 ∨ ¬ w.nowCheck < s.authExpiry)
    (hfail : (w.clientID = "" ∨ w.clientSecret = "") ∨ w.tokenReply = .transportError ∨
      ∃ status body, w.tokenReply = .response status body ∧ status ≠ 200) :
    (getSpotifyToken w s).err ≠ none ∧ (getSpotifyToken w s).state = s ∧
      ((w.clientID = "" ∨ w.clientSecret = "") → (getSpotifyToken w s).calls = []) := by
  have h := (stale_iff w s).1 hstale
  by_cases hc : w.clientID = "" ∨ w.clientSecret = ""
  · rw [getSpotifyToken_of_unset w s h hc]
    exact ⟨by simp, rfl, fun _ => rfl⟩
  · rcases hfail with h1 | h1 | ⟨status, body, hr, hs⟩
    · exact absurd h1 hc
    · rw [getSpotifyToken_of_transportError w s h hc h1]
      exact ⟨by simp, rfl, fun h2 => absurd h2 hc⟩
    · rw [getSpotifyToken_of_status w s status body h hc hr hs]
      exact ⟨by simp, rfl, fun h2 => absurd h2 hc⟩

theorem getSpotifyToken_failure_keeps_cache_witness :
    (staleState.authExpiry = 0 ∨ ¬ failingAuthWorld.nowCheck < staleState.authExpiry) ∧
      (∃ status body, failingAuthWorld.tokenReply = .response status body ∧ status ≠ 200) ∧
      (getSpotifyToken failingAuthWorld staleState).err ≠ none ∧
      (getSpotifyToken failingAuthWorld staleState).state = staleState :=
  ⟨by decide, ⟨503, _, rfl, by decide⟩,
    (getSpotifyToken_failure_keeps_cache failingAuthWorld staleState (by decide)
      (Or.inr (Or.inr ⟨503, _, rfl, by decide⟩))).1,
    (getSpotifyToken_failure_keeps_cache failingAuthWorld staleState (by decide)
      (Or.inr (Or.inr ⟨503, _, rfl, by decide⟩))).2.1⟩

/-- C10, as stated, fails: a successful refresh whose response carries the negative
`expires_in` of `wrapBody` stores an expiry after the refresh time, because the duration
wraps around to a positive value, and a later call serves the cached credential without an
outbound call. -/
theorem getSpotifyToken_negative_wraps :
    State.initial.authExpiry = 0 ∧
      wrapWorld.tokenReply = .response 200 wrapBody ∧
      wrapBody.expires_in = some (-9223371977) ∧ (-9223371977 : Int) ≤ 60 ∧
      (getSpotifyToken wrapWorld State.initial).err = none ∧
      wrapWorld.nowStore < (getSpotifyToken wrapWorld State.initial).state.authExpiry ∧
      wrapWorld.nowStore ≤ laterWorld.nowCheck ∧
      (getSpotifyToken laterWorld (getSpotifyToken wrapWorld State.initial).state).err = none ∧
      (getSpotifyToken laterWorld (getSpotifyToken wrapWorld State.initial).state).calls = [] := by
  decide

/-- C10, amended: after a successful refresh whose response carries an `expires_in` between
`-9223371976` and `60` (or carries none, the cached `ExpiresIn` being zero), the stored expiry
is not after the refresh time; under a non-decreasing clock and an unchanged environment,
every later call of `getSpotifyToken` that finds this expiry in the cache makes exactly one
outbound call to the token endpoint. -/
theorem getSpotifyToken_short_lived_refreshes (w later : World) (s cached : State)
    (b : TokenBody)
    (hstale : s.authExpiry = 0 ∨ ¬ w.nowCheck < s.authExpiry)
    (hid : w.clientID ≠ "") (hsecret : w.clientSecret ≠ "")
    (hreply : w.tokenReply = .response 200 b)
    (hdec : (decodeSpotifyAuth b s.spotifyAuth).2 = false)
    (hshort : (∃ e, b.expires_in = some e ∧ -9223371976 ≤ e ∧ e ≤ 60) ∨
      (b.expires_in = none ∧ s.spotifyAuth.ExpiresIn = 0))
    (hcached : cached.authExpiry = (getSpotifyToken w s).state.authExpiry)
    (henvID : later.clientID = w.clientID) (henvSecret : later.clientSecret = w.clientSecret)
    (hclock : w.nowStore ≤ later.nowCheck) :
    (getSpotifyToken w s).err = none ∧
      (getSpotifyToken w s).state.authExpiry ≤ w.nowStore ∧
      (getSpotifyToken later cached).calls =
        [Outbound.tokenPost (later.clientID ++ ":" ++ later.clientSecret)] := by
  have h := (stale_iff w s).1 hstale
  have hc : ¬ (w.clientID = "" ∨ w.clientSecret = "") := by
    rintro (h1 | h1)
    · exact hid h1
    · exact hsecret h1
  have hle : (getSpotifyToken w s).state.authExpiry ≤ w.nowStore := by
    rw [getSpotifyToken_of_decoded w s b h hc hreply hdec]
    show w.nowStore + expiryDuration (decodeSpotifyAuth b s.spotifyAuth).1.ExpiresIn ≤ _
    have hdur : expiryDuration (decodeSpotifyAuth b s.spotifyAuth).1.ExpiresIn ≤ 0 := by
      rcases hshort with ⟨e, he, hlo, hhi⟩ | ⟨hnone, hzero⟩
      · have hin : inInt64 e := by
          unfold inInt64
          omega
        have hfit : inInt64 ((e - 60) * 1000000000) := by
          unfold inInt64
          omega
        rw [decodeSpotifyAuth_expiresIn b s.spotifyAuth e he hin, expiryDuration_of_fits e hfit]
        omega
      · rw [decodeSpotifyAuth_expiresIn_absent b s.spotifyAuth hnone, hzero]
        decide
    omega
  refine ⟨?_, hle, ?_⟩
  · rw [getSpotifyToken_of_decoded w s b h hc hreply hdec]
  · have hstale2 : cached.authExpiry = 0 ∨ ¬ later.nowCheck < cached.authExpiry := by
      right
      rw [hcached]
      omega
    have hc2 : ¬ (later.clientID = "" ∨ later.clientSecret = "") := by
      rw [henvID, henvSecret]
      exact hc
    have h2 := (stale_iff later cached).1 hstale2
    rcases getSpotifyToken_calls later cached with hnil | hone
    · exfalso
      exact getSpotifyToken_calls_ne_nil later cached h2 hc2 hnil
    · exact hone

theorem getSpotifyToken_short_lived_refreshes_witness :
    (State.initial.authExpiry = 0 ∨ ¬ shortWorld.nowCheck < State.initial.authExpiry) ∧
      shortWorld.clientID ≠ "" ∧ shortWorld.clientSecret ≠ "" ∧
      shortWorld.nowStore ≤ laterWorld.nowCheck ∧
      ((getSpotifyToken shortWorld State.initial).err = none ∧
        (getSpotifyToken shortWorld State.initial).state.authExpiry ≤ shortWorld.nowStore ∧
        (getSpotifyToken laterWorld (getSpotifyToken shortWorld State.initial).state).calls =
          [Outbound.tokenPost (laterWorld.clientID ++ ":" ++ laterWorld.clientSecret)]) :=
  ⟨by decide, by decide, by decide, by decide,
    getSpotifyToken_short_lived_refreshes shortWorld laterWorld State.initial
      (getSpotifyToken shortWorld State.initial).state shortBody (by decide) (by decide)
      (by decide) rfl rfl (Or.inl ⟨30, rfl, by decide, by decide⟩) rfl rfl rfl (by decide)⟩

/-! ## Lemmas on cJSON -/

theorem cJSON_400 (obj : Payload) : cJSON 400 obj = .sent 400 (some obj) := by
  unfold cJSON bodyAllowedForStatus
  simp

theorem cJSON_500 (obj : Payload) : cJSON 500 obj = .sent 500 (some obj) := by
  unfold cJSON bodyAllowedForStatus
  simp

theorem cJSON_of_valid (code : Int) (obj : Payload) (hlo : 100 ≤ code) (hhi : code ≤ 999) :
    cJSON code obj =
      .sent code (if 200 ≤ code ∧ code ≠ 204 ∧ code ≠ 304 then some obj else none) := by
  unfold cJSON bodyAllowedForStatus
  rw [if_neg (by omega)]
  by_cases h1 : 100 ≤ code ∧ code ≤ 199
  · rw [if_pos h1, if_neg (by simp), if_neg (by omega)]
  · rw [if_neg h1]
    by_cases h2 : code = 204
    · rw [if_pos h2, if_neg (by simp), if_neg (by omega)]
    · rw [if_neg h2]
      by_cases h3 : code = 304
      · rw [if_pos h3, if_neg (by simp), if_neg (by omega)]
      · rw [if_neg h3, if_pos rfl, if_pos (by omega)]

/-! ## The handlers -/

/-- C5, as stated, fails: with the token obtained and the provider answering the search call
with status 204, `searchTracks` responds with status 204 and no body, not with the body
`error: "Spotify API error"`; `getTrackDetails` does the same for a track answer 304. -/
theorem upstream_no_content_has_no_body :
    (getSpotifyToken noContentWorld State.initial).err = none ∧
      noContentWorld.searchReply = .response 204 none ∧
      noContentWorld.trackReply = .response 304 none ∧
      (searchTracks noContentWorld State.initial "Imagine").response = .sent 204 none ∧
      (searchTracks noContentWorld State.initial "Imagine").response ≠
        .sent 204 (some (.error "Spotify API error")) ∧
      (getTrackDetails noContentWorld State.initial "abc123").response = .sent 304 none ∧
      (getTrackDetails noContentWorld State.initial "abc123").response ≠
        .sent 304 (some (.error "Spotify API error")) := by
  decide

/-- C5, amended: when the parameter is non-empty, the token is obtained and the provider
answers the catalog call with a status code (100..999) other than 200, `searchTracks` and
`getTrackDetails` each respond with exactly that status, whatever the upstream body is; the
body is `error: "Spotify API error"` when the status is at least 200 and neither 204 nor 304,
and there is no body otherwise. -/
theorem upstream_status_passed_through (w : World) (s : State) (param : String)
    (status : Int) (hparam : param ≠ "") (htoken : (getSpotifyToken w s).err = none)
    (hstatus : status ≠ 200) (hlo : 100 ≤ status) (hhi : status ≤ 999) :
    (∀ body, w.searchReply = .response status body →
        (searchTracks w s param).response =
          .sent status (if 200 ≤ status ∧ status ≠ 204 ∧ status ≠ 304
            then some (.error "Spotify API error") else none)) ∧
      (∀ body, w.urlParses (trackURL param) = true → w.trackReply = .response status body →
        (getTrackDetails w s param).response =
          .sent status (if 200 ≤ status ∧ status ≠ 204 ∧ status ≠ 304
            then some (.error "Spotify API error") else none)) := by
  constructor
  · intro body hr
    unfold searchTracks
    rw [if_neg hparam]
    simp only [htoken, hr]
    rw [if_pos hstatus]
    exact cJSON_of_valid status _ hlo hhi
  · intro body hurl hr
    unfold getTrackDetails
    rw [if_neg hparam]
    simp only [htoken, hr]
    rw [if_neg (by simp [hurl]), if_pos hstatus]
    exact cJSON_of_valid status _ hlo hhi

theorem upstream_status_passed_through_witness :
    "abc123" ≠ "" ∧ (getSpotifyToken upstreamErrorWorld State.initial).err = none ∧
      (searchTracks upstreamErrorWorld State.initial "Imagine").response =
        .sent 429 (some (.error "Spotify API error")) ∧
      (getTrackDetails upstreamErrorWorld State.initial "abc123").response =
        .sent 404 (some (.error "Spotify API error")) :=
  ⟨by decide, by decide,
    (upstream_status_passed_through upstreamErrorWorld State.initial "Imagine" 429 (by decide)
      (by decide) (by decide) (by decide) (by decide)).1 none rfl,
    (upstream_status_passed_through upstreamErrorWorld State.initial "abc123" 404 (by decide)
      (by decide) (by decide) (by decide) (by decide)).2 none rfl rfl⟩

/-- C6: when the query parameter `q` is missing or empty, `searchTracks` responds with status
400 and an error body, makes no outbound call and leaves the token cache as it was. -/
theorem searchTracks_empty_query (w : World) (s : State) :
    (searchTracks w s "").response =
        .sent 400 (some (.error "query parameter 'q' is required")) ∧
      (searchTracks w s "").calls = [] ∧ (searchTracks w s "").state = s := by
  unfold searchTracks
  rw [if_pos rfl, cJSON_400]
  exact ⟨rfl, rfl, rfl⟩

/-- C7: when the track id path parameter is missing or empty, `getTrackDetails` responds with
status 400 and an error body, makes no outbound call and leaves the token cache as it was. -/
theorem getTrackDetails_empty_id (w : World) (s : State) :
    (getTrackDetails w s "").response = .sent 400 (some (.error "track ID is required")) ∧
      (getTrackDetails w s "").calls = [] ∧ (getTrackDetails w s "").state = s := by
  unfold getTrackDetails
  rw [if_pos rfl, cJSON_400]
  exact ⟨rfl, rfl, rfl⟩

/-- C8: when the parameter is non-empty, the token is obtained and the provider answers the
catalog call with status 200 and a body that does not decode, `searchTracks` and
`getTrackDetails` each respond with status 500 and the body
`error: "Failed to parse response"`. -/
theorem undecodable_body_is_500 (w : World) (s : State) (param : String)
    (hparam : param ≠ "") (htoken : (getSpotifyToken w s).err = none) :
    (w.searchReply = .response 200 none →
        (searchTracks w s param).response =
          .sent 500 (some (.error "Failed to parse response"))) ∧
      (w.urlParses (trackURL param) = true → w.trackReply = .response 200 none →
        (getTrackDetails w s param).response =
          .sent 500 (some (.error "Failed to parse response"))) := by
  constructor
  · intro hr
    unfold searchTracks
    rw [if_neg hparam]
    simp only [htoken, hr]
    rw [if_neg (by simp), cJSON_500]
  · intro hurl hr
    unfold getTrackDetails
    rw [if_neg hparam]
    simp only [htoken, hr]
    rw [if_neg (by simp [hurl]), if_neg (by simp), cJSON_500]

theorem undecodable_body_is_500_witness :
    "abc123" ≠ "" ∧ (getSpotifyToken garbledWorld State.initial).err = none ∧
      (searchTracks garbledWorld State.initial "abc123").response =
        .sent 500 (some (.error "Failed to parse response")) ∧
      (getTrackDetails garbledWorld State.initial "abc123").response =
        .sent 500 (some (.error "Failed to parse response")) :=
  ⟨by decide, by decide,
    (undecodable_body_is_500 garbledWorld State.initial "abc123" (by decide) (by decide)).1 rfl,
    (undecodable_body_is_500 garbledWorld State.initial "abc123" (by decide)
      (by decide)).2 rfl rfl⟩

/-- C9: when the parameter is non-empty and `getSpotifyToken` returns an error, of whatever
kind, `searchTracks` and `getTrackDetails` each respond with status 500 and an error body and
make no call to the catalog: their outbound calls are those of `getSpotifyToken`. -/
theorem auth_failure_is_500 (w : World) (s : State) (param : String)
    (hparam : param ≠ "") (hfail : (getSpotifyToken w s).err ≠ none) :
    ((searchTracks w s param).response =
          .sent 500 (some (.error "Failed to authenticate with Spotify")) ∧
        (searchTracks w s param).calls = (getSpotifyToken w s).calls ∧
        ∀ c ∈ (searchTracks w s param).calls, c.isCatalog = false) ∧
      ((getTrackDetails w s param).response =
          .sent 500 (some (.error "Failed to authenticate with Spotify")) ∧
        (getTrackDetails w s param).calls = (getSpotifyToken w s).calls ∧
        ∀ c ∈ (getTrackDetails w s param).calls, c.isCatalog = false) := by
  obtain ⟨msg, hmsg⟩ : ∃ msg, (getSpotifyToken w s).err = some msg := by
    cases he : (getSpotifyToken w s).err with
    | none => exact absurd he hfail
    | some msg => exact ⟨msg, rfl⟩
  have hsearch : (searchTracks w s param).calls = (getSpotifyToken w s).calls := by
    unfold searchTracks
    rw [if_neg hparam]
    simp only [hmsg]
  have htrack : (getTrackDetails w s param).calls = (getSpotifyToken w s).calls := by
    unfold getTrackDetails
    rw [if_neg hparam]
    simp only [hmsg]
  refine ⟨⟨?_, hsearch, ?_⟩, ⟨?_, htrack, ?_⟩⟩
  · unfold searchTracks
    rw [if_neg hparam]
    simp only [hmsg]
    rw [cJSON_500]
  · intro c hc
    rw [hsearch] at hc
    exact getSpotifyToken_calls_not_catalog w s c hc
  · unfold getTrackDetails
    rw [if_neg hparam]
    simp only [hmsg]
    rw [cJSON_500]
  · intro c hc
    rw [htrack] at hc
    exact getSpotifyToken_calls_not_catalog w s c hc

theorem auth_failure_is_500_witness :
    "abc123" ≠ "" ∧ (getSpotifyToken failingAuthWorld State.initial).err ≠ none ∧
      ((searchTracks failingAuthWorld State.initial "abc123").response =
          .sent 500 (some (.error "Failed to authenticate with Spotify")) ∧
        (searchTracks failingAuthWorld State.initial "abc123").calls =
          (getSpotifyToken failingAuthWorld State.initial).calls ∧
        ∀ c ∈ (searchTracks failingAuthWorld State.initial "abc123").calls,
          c.isCatalog = false) ∧
      ((getTrackDetails failingAuthWorld State.initial "abc123").response =
          .sent 500 (some (.error "Failed to authenticate with Spotify")) ∧
        (getTrackDetails failingAuthWorld State.initial "abc123").calls =
          (getSpotifyToken failingAuthWorld State.initial).calls ∧
        ∀ c ∈ (getTrackDetails failingAuthWorld State.initial "abc123").calls,
          c.isCatalog = false) :=
  ⟨by decide, by decide,
    auth_failure_is_500 failingAuthWorld State.initial "abc123" (by decide) (by decide)⟩

end SpotifyTool
